import Mathlib

/-!
Verification development for the ipython-extensions repository
(src/graphviz.py and src/tikz.py): a shallow embedding of the external
renderer invokers, the TikZ document assembler, the PDF conversion stage
and the format dispatchers, together with theorems settling the
specification claims about them.

External processes are modelled by explicit world records describing the
observable behaviour of one invocation: whether the binary could be
launched, the exit status the process would report, the bytes it writes
to its standard streams, and the files it leaves in the working
directory.  Exit statuses of processes that actually ran are natural
numbers (a real process exit code is in 0..255); the `returncode` fields
of the error records are integers because the code stores the sentinel
`-1` there for launch failures.  Byte strings are lists of naturals;
UTF-8 decoding and encoding are modelled by the character-code maps,
which agree with UTF-8 on the ASCII range.
-/

deriving instance DecidableEq for Except

/-- Byte strings (contents of files and process streams). -/
abbrev ByteSeq : Type := List Nat

/-- Model of Python's `bytes.decode('utf-8')` (exact on ASCII data). -/
def utf8Decode (bs : ByteSeq) : String :=
  String.mk (List.map Char.ofNat bs)

/-- Model of Python's `str.encode('utf-8')` (exact on ASCII data). -/
def utf8Encode (s : String) : ByteSeq :=
  List.map Char.toNat s.data

/-- The `Command` enum of src/graphviz.py (lines 27-32). -/
inductive GvCommand where
  | DOT
  | NEATO
  | FDP
  | TWOPI
  | CIRCO
deriving DecidableEq, Repr

/-- The `value` attribute of the `Command` enum members. -/
def GvCommand.value : GvCommand → String
  | .DOT => "dot"
  | .NEATO => "neato"
  | .FDP => "fdp"
  | .TWOPI => "twopi"
  | .CIRCO => "circo"

/-- The `Format` enum of src/graphviz.py (lines 35-39). -/
inductive GvFormat where
  | SVG
  | PNG
  | PDF
  | PS
deriving DecidableEq, Repr

/-- The `value` attribute of the `Format` enum members. -/
def GvFormat.value : GvFormat → String
  | .SVG => "svg"
  | .PNG => "png"
  | .PDF => "pdf"
  | .PS => "ps"

/-- The `GraphvizError` exception of src/graphviz.py (lines 48-53):
constructor arguments `command`, `returncode`, `stderr`, `code`. -/
structure GraphvizError where
  command : List String
  returncode : Int
  stderr : String
  code : String
deriving DecidableEq, Repr

/-- A successful render payload: either UTF-8-decoded text (Python `str`)
or an opaque byte buffer (Python `bytes`). -/
inductive RenderOutput where
  | text (s : String)
  | bytes (b : ByteSeq)
deriving DecidableEq, Repr

/-- Observable behaviour of one pipe-based external process invocation
(the `Popen`/`communicate` call in src/graphviz.py lines 64-69).
`stdoutBytes`/`stderrBytes` are the bytes observed on the process's
standard streams: obtained either from `communicate` (line 66) or, when
`communicate` raises `OSError`/`IOError`, from the recovery reads on
line 68 - the logic on lines 70-75 that consumes them is identical in
both cases, so the two paths are folded into one pair of fields.
`popenOk` is false when the binary cannot be launched, in which case the
`Popen` constructor itself (line 64, outside the `try` block) raises
`OSError` in the caller. -/
structure PipeWorld where
  popenOk : Bool
  exitCode : Nat
  stdoutBytes : ByteSeq
  stderrBytes : ByteSeq
  osMessage : String
deriving DecidableEq, Repr

/-- Outcome of one call to the `graphviz` function: a raised
`GraphvizError`, an uncaught OS-level error escaping from the `Popen`
constructor, or a returned payload. -/
inductive GvOutcome where
  | raised (e : GraphvizError)
  | osError (msg : String)
  | ok (o : RenderOutput)
deriving DecidableEq, Repr

/-- Embedding of the `graphviz` function of src/graphviz.py (lines 62-75):
builds `[cmd.value] + options + ['-T', fmt.value]`, launches the process
(an unlaunchable binary makes `Popen` itself raise `OSError`, uncaught),
raises `GraphvizError(command, returncode, stderr.decode('utf-8'), code)`
on non-zero exit, and otherwise returns decoded stdout for SVG and the
raw stdout bytes for every other format. -/
def graphviz (code : String) (options : List String) (fmt : GvFormat)
    (cmd : GvCommand) (w : PipeWorld) : GvOutcome :=
  let command := [cmd.value] ++ options ++ ["-T", fmt.value]
  if w.popenOk = false then
    GvOutcome.osError w.osMessage
  else if w.exitCode ≠ 0 then
    GvOutcome.raised ⟨command, (w.exitCode : Int), utf8Decode w.stderrBytes, code⟩
  else if fmt = GvFormat.SVG then
    GvOutcome.ok (RenderOutput.text (utf8Decode w.stdoutBytes))
  else
    GvOutcome.ok (RenderOutput.bytes w.stdoutBytes)

/-- A notebook display object: `display.SVG(payload)` or
`display.Image(payload)`. -/
inductive DisplayObject where
  | svg (payload : RenderOutput)
  | image (payload : RenderOutput)
deriving DecidableEq, Repr

/-- The `_FORMAT_TO_DISPLAY` dictionary of src/graphviz.py (lines 42-45):
maps `Format.SVG` to `display.SVG` and `Format.PNG` to `display.Image`;
every other format is absent (`none`, a `KeyError` on lookup). -/
def formatToDisplay : GvFormat → Option (RenderOutput → DisplayObject)
  | GvFormat.SVG => some DisplayObject.svg
  | GvFormat.PNG => some DisplayObject.image
  | _ => none

/-- Outcome of the `GraphvizMagics.graphviz` cell magic body
(src/graphviz.py lines 95-102) after argument parsing. -/
inductive GvMagicResult where
  | displayed (o : DisplayObject)
  | keyErr
  | raisedErr (e : GraphvizError)
  | osErr (msg : String)
deriving DecidableEq, Repr

/-- Embedding of `GraphvizMagics.graphviz` (src/graphviz.py lines 95-102):
calls `graphviz(cell, options, fmt, cmd)` and wraps the output through
`_FORMAT_TO_DISPLAY[fmt]`. -/
def graphvizMagic (cell : String) (options : List String) (fmt : GvFormat)
    (cmd : GvCommand) (w : PipeWorld) : GvMagicResult :=
  match graphviz cell options fmt cmd w with
  | GvOutcome.osError m => GvMagicResult.osErr m
  | GvOutcome.raised e => GvMagicResult.raisedErr e
  | GvOutcome.ok out =>
    match formatToDisplay fmt with
    | some f => GvMagicResult.displayed (f out)
    | none => GvMagicResult.keyErr

/-- The `LatexError` exception of src/tikz.py (lines 76-81):
constructor arguments `command`, `returncode`, `stderr`, `code`. -/
structure LatexError where
  command : List String
  returncode : Int
  stderr : String
  code : String
deriving DecidableEq, Repr

/-- The `ConvertError` exception of src/tikz.py (lines 89-93):
constructor arguments `command`, `returncode`, `stderr`; unlike
`LatexError` it has no `code` field, so it never carries the source. -/
structure ConvertError where
  command : List String
  returncode : Int
  stderr : String
deriving DecidableEq, Repr

/-- The `Format` enum of src/tikz.py (lines 101-104). -/
inductive TkFormat where
  | SVG
  | PNG
  | PDF
deriving DecidableEq, Repr

/-- `DEFAULT_LIBRARIES` of src/tikz.py (lines 30-31). -/
def DEFAULT_LIBRARIES : List String :=
  ["arrows", "snakes", "backgrounds", "patterns", "matrix",
   "shapes", "fit", "calc", "shadows", "plotmarks"]

/-- `DEFAULT_PDFLATEX` of src/tikz.py (line 33). -/
def DEFAULT_PDFLATEX : List String :=
  ["pdflatex", "-shell-escape", "-interaction=nonstopmode"]

/-- `DEFAULT_PDF2SVG` of src/tikz.py (line 34). -/
def DEFAULT_PDF2SVG : List String := ["pdf2svg"]

/-- `DEFAULT_PDF2PNG` of src/tikz.py (line 35). -/
def DEFAULT_PDF2PNG : List String := ["convert", "-density", "300"]

/-- The `latex_template` of src/tikz.py (lines 37-67), with the
`$packages`, `$libraries` and `$code` placeholders substituted. -/
def latex_template (packages libraries code : String) : String :=
  "\n\\documentclass\x7barticle\x7d\n\n\\usepackage[utf8]\x7binputenc\x7d\n\\usepackage[T1]\x7bfontenc\x7d\n\n\\usepackage\x7bamsmath\x7d\n\\usepackage\x7bamsfonts\x7d\n\\usepackage\x7bamssymb\x7d\n\n"
    ++ packages
    ++ "\n\n\\usepackage\x7btikz\x7d\n\n"
    ++ libraries
    ++ "\n\n\\usepackage[graphics,tightpage,active]\x7bpreview\x7d\n\n\\PreviewEnvironment\x7btikzpicture\x7d\n\\PreviewEnvironment\x7bequation\x7d\n\\PreviewEnvironment\x7bequation*\x7d\n\n\\newlength\x7b\\imagewidth\x7d\n\\newlength\x7b\\imagescale\x7d\n\n\\pagestyle\x7bempty\x7d\n\\thispagestyle\x7bempty\x7d\n\n\\begin\x7bdocument\x7d\n"
    ++ code
    ++ "\n\\end\x7bdocument\x7d"

/-- The `tikz_picture_template` of src/tikz.py (lines 69-73), with the
`$options` and `$code` placeholders substituted. -/
def tikz_picture_template (options code : String) : String :=
  "\n\\begin\x7btikzpicture\x7d[" ++ options ++ "]\n" ++ code
    ++ "\n\\end\x7btikzpicture\x7d\n"

/-- One `\usetikzlibrary{...}` directive (src/tikz.py line 207). -/
def usetikzlibraryDirective (library : String) : String :=
  "\\usetikzlibrary\x7b" ++ library ++ "\x7d"

/-- One `\usepackage{...}` directive (src/tikz.py line 203). -/
def usepackageDirective (package : String) : String :=
  "\\usepackage\x7b" ++ package ++ "\x7d"

/-- The library-inclusion block of `TikzMagics.tikz` (src/tikz.py lines
205-207): one directive per entry of `args.library + DEFAULT_LIBRARIES`,
in that order. -/
def tikzLibraryDirectives (library : List String) : List String :=
  List.map usetikzlibraryDirective (library ++ DEFAULT_LIBRARIES)

/-- One file on disk: a directory identifier, a file name and contents. -/
structure FileEntry where
  dir : Nat
  name : String
  content : ByteSeq
deriving DecidableEq, Repr

/-- Filesystem state: a fresh-directory counter, the set of live
temporary directories, the files inside temporary directories, and the
files saved to caller-specified paths outside any temporary directory
(the save-path argument of the tikz magic). -/
structure FSState where
  nextDir : Nat
  dirs : List Nat
  files : List FileEntry
  savedFiles : List (String × ByteSeq)
deriving DecidableEq, Repr

/-- Write (or overwrite, later entries shadowing earlier ones) a file in
a temporary directory. -/
def FSState.writeFile (fs : FSState) (d : Nat) (name : String)
    (content : ByteSeq) : FSState :=
  { fs with files := fs.files ++ [⟨d, name, content⟩] }

/-- Record the files an external process leaves in its working
directory. -/
def FSState.writeAll (fs : FSState) (d : Nat)
    (created : List (String × ByteSeq)) : FSState :=
  { fs with files := fs.files ++ List.map (fun nc => ⟨d, nc.1, nc.2⟩) created }

/-- Recursive removal of a temporary directory and its contents, as
performed by `TemporaryDirectory.__exit__`. -/
def FSState.removeDir (fs : FSState) (d : Nat) : FSState :=
  { fs with
    dirs := fs.dirs.filter (fun x => x != d),
    files := fs.files.filter (fun f => f.dir != d) }

/-- Embedding of `with TemporaryDirectory() as tempdir:`: a fresh empty
directory is created, the body runs (returning its value, exceptional or
not, as data), and the directory with all its contents is removed on
every exit path - Python's `with` statement runs `__exit__` both on
normal completion and on a raised exception. -/
def withTempDir {α : Type} (fs : FSState) (body : Nat → FSState → α × FSState) :
    α × FSState :=
  let d := fs.nextDir
  let fs1 : FSState :=
    { nextDir := fs.nextDir + 1,
      dirs := fs.dirs ++ [d],
      files := fs.files.filter (fun f => f.dir != d),
      savedFiles := fs.savedFiles }
  let r := body d fs1
  (r.1, FSState.removeDir r.2 d)

/-- Observable behaviour of one file-based external process invocation
(the `subprocess.call` in src/tikz.py lines 113, 137 and 156).
`launchOk` is false when the binary cannot be launched (`call` raises
`OSError`); `exitCode` is the exit status when it ran; `createdFiles`
are the files the process leaves in its working directory (for
`pdflatex`: possibly `code.log` and `code.pdf`). -/
structure FileWorld where
  launchOk : Bool
  exitCode : Nat
  createdFiles : List (String × ByteSeq)
  osMessage : String
deriving DecidableEq, Repr

/-- Content of a file the external process left in the working
directory, if any (the last write wins). -/
def FileWorld.created (w : FileWorld) (name : String) : Option ByteSeq :=
  Option.map (fun nc => nc.2)
    ((w.createdFiles.filter (fun nc => nc.1 == name)).getLast?)

/-- Embedding of `run_latex` (src/tikz.py lines 107-128): inside a fresh
temporary directory, writes the document to `code.tex`, runs
`command + ['code.tex']`; a launch failure raises
`LatexError(command, -1, str(error), code)`; a non-zero exit raises
`LatexError(command, returncode, log-or-marker, code)` where the
diagnostic text is the decoded content of `code.log` when that file
exists and the string `'no log file created'` otherwise; on zero exit
the content of `code.pdf` is returned, and if that file is missing a
`LatexError(command, returncode, 'no output created', code)` is raised
(with `returncode` equal to the zero exit status). -/
def run_latex (code : String) (command : List String) (w : FileWorld)
    (fs : FSState) : Except LatexError ByteSeq × FSState :=
  withTempDir fs (fun tempdir fs0 =>
    let fs1 := fs0.writeFile tempdir "code.tex" (utf8Encode code)
    let command := command ++ ["code.tex"]
    if w.launchOk = false then
      (Except.error ⟨command, -1, w.osMessage, code⟩, fs1)
    else
      let fs2 := fs1.writeAll tempdir w.createdFiles
      if w.exitCode ≠ 0 then
        (Except.error ⟨command, (w.exitCode : Int),
          (match w.created "code.log" with
           | some log => utf8Decode log
           | none => "no log file created"), code⟩, fs2)
      else
        match w.created "code.pdf" with
        | some output => (Except.ok output, fs2)
        | none =>
          (Except.error ⟨command, (w.exitCode : Int), "no output created", code⟩, fs2))

/-- Embedding of `convert_pdf2svg` (src/tikz.py lines 131-147): inside a
fresh temporary directory, writes the PDF bytes to `inpdf.pdf`, runs
`command + ['inpdf.pdf', 'outsvg.svg']`; a launch failure raises
`ConvertError(command, -1, str(error))`; a non-zero exit raises
`ConvertError(command, -1, '')` - note the literal `-1` and empty
diagnostic, the actual exit status is not stored; on zero exit the
content of `outsvg.svg` is returned UTF-8-decoded, and if that file is
missing a `ConvertError(command, returncode, 'no output created')` is
raised. -/
def convert_pdf2svg (pdf_content : ByteSeq) (command : List String)
    (w : FileWorld) (fs : FSState) : Except ConvertError String × FSState :=
  withTempDir fs (fun tempdir fs0 =>
    let fs1 := fs0.writeFile tempdir "inpdf.pdf" pdf_content
    let command := command ++ ["inpdf.pdf", "outsvg.svg"]
    if w.launchOk = false then
      (Except.error ⟨command, -1, w.osMessage⟩, fs1)
    else
      let fs2 := fs1.writeAll tempdir w.createdFiles
      if w.exitCode ≠ 0 then
        (Except.error ⟨command, -1, ""⟩, fs2)
      else
        match w.created "outsvg.svg" with
        | some output => (Except.ok (utf8Decode output), fs2)
        | none =>
          (Except.error ⟨command, (w.exitCode : Int), "no output created"⟩, fs2))

/-- Embedding of `convert_pdf2png` (src/tikz.py lines 150-166): same
shape as `convert_pdf2svg` with file names `inpdf.pdf`/`outpng.png`,
except that on success the content of `outpng.png` is returned as raw
bytes, not decoded. -/
def convert_pdf2png (pdf_content : ByteSeq) (command : List String)
    (w : FileWorld) (fs : FSState) : Except ConvertError ByteSeq × FSState :=
  withTempDir fs (fun tempdir fs0 =>
    let fs1 := fs0.writeFile tempdir "inpdf.pdf" pdf_content
    let command := command ++ ["inpdf.pdf", "outpng.png"]
    if w.launchOk = false then
      (Except.error ⟨command, -1, w.osMessage⟩, fs1)
    else
      let fs2 := fs1.writeAll tempdir w.createdFiles
      if w.exitCode ≠ 0 then
        (Except.error ⟨command, -1, ""⟩, fs2)
      else
        match w.created "outpng.png" with
        | some output => (Except.ok output, fs2)
        | none =>
          (Except.error ⟨command, (w.exitCode : Int), "no output created"⟩, fs2))

/-- The document-assembly steps of `TikzMagics.tikz` (src/tikz.py lines
197-212): joins the option tokens with spaces, wraps the cell in the
tikzpicture template, builds the package-inclusion and
library-inclusion blocks, and substitutes everything into the outer
document template. -/
def tikzAssembleDocument (cell : String) (library packages options : List String) :
    String :=
  let tikz_options := String.intercalate " " options
  let tikz_picture := tikz_picture_template tikz_options cell
  let latex_packages := List.map usepackageDirective packages
  let tikz_libraries := tikzLibraryDirectives library
  latex_template (String.intercalate "\n" latex_packages)
    (String.intercalate "\n" tikz_libraries) tikz_picture

/-- The worlds of the up-to-two external processes one tikz cell
execution may run: the `pdflatex` invocation and the converter
invocation actually selected by the format. -/
structure TikzWorlds where
  latex : FileWorld
  svg : FileWorld
  png : FileWorld
deriving DecidableEq, Repr

/-- Outcome of the `TikzMagics.tikz` cell magic body (src/tikz.py lines
193-223) after argument parsing.  `imageObject` would be the result of
the PNG branch had `display.Image` been available; `nameError` is an
uncaught Python `NameError`. -/
inductive TikzResult where
  | publishedSvg (payload : String)
  | imageObject (payload : ByteSeq)
  | latexFailure (e : LatexError)
  | convertFailure (e : ConvertError)
  | nameError (missing : String)
  | noDisplay
deriving DecidableEq, Repr

/-- Embedding of `TikzMagics.tikz` (src/tikz.py lines 193-223): wraps
the cell in the tikzpicture template, assembles the package and library
blocks and the full document, runs `run_latex`, then (before any
conversion) writes the PDF to the `--save` path when one was given, and
finally dispatches on the format.  The SVG branch converts through
`convert_pdf2svg` and publishes the decoded SVG.  The PNG branch (line
223) evaluates the expression `display.Image`, but src/tikz.py imports
only `os.path`, `Enum`, `Template`, `call`, `TemporaryDirectory`,
`displaypub`, `magic` and `magic_arguments` and never binds the name
`display`, so that branch raises `NameError` before the converter is
ever invoked.  A PDF format request matches neither branch and displays
nothing. -/
def tikzMagic (cell : String) (fmt : TkFormat) (library packages options : List String)
    (save : Option String) (w : TikzWorlds) (fs : FSState) : TikzResult × FSState :=
  match run_latex (tikzAssembleDocument cell library packages options)
      DEFAULT_PDFLATEX w.latex fs with
  | (Except.error e, fs1) => (TikzResult.latexFailure e, fs1)
  | (Except.ok pdf_content, fs1) =>
    let fs2 :=
      match save with
      | some path => { fs1 with savedFiles := fs1.savedFiles ++ [(path, pdf_content)] }
      | none => fs1
    match fmt with
    | TkFormat.SVG =>
      match convert_pdf2svg pdf_content DEFAULT_PDF2SVG w.svg fs2 with
      | (Except.error e, fs3) => (TikzResult.convertFailure e, fs3)
      | (Except.ok data, fs3) => (TikzResult.publishedSvg data, fs3)
    | TkFormat.PNG => (TikzResult.nameError "display", fs2)
    | TkFormat.PDF => (TikzResult.noDisplay, fs2)

/-- Whether a `GvOutcome` is a raised `GraphvizError`. -/
def gvIsRaised : GvOutcome → Bool
  | GvOutcome.raised _ => true
  | _ => false

/-- Whether a `GvOutcome` is an uncaught OS-level launch error. -/
def gvIsOsError : GvOutcome → Bool
  | GvOutcome.osError _ => true
  | _ => false

/-- Whether a `GvOutcome` is a successful result. -/
def gvIsOk : GvOutcome → Bool
  | GvOutcome.ok _ => true
  | _ => false

/-- The `command` field of a raised `GraphvizError`, if raised. -/
def gvRaisedCommand : GvOutcome → Option (List String)
  | GvOutcome.raised e => some e.command
  | _ => none

/-- Whether an `Except` value is an error. -/
def exceptIsError {ε α : Type} : Except ε α → Bool
  | Except.error _ => true
  | Except.ok _ => false

/-- Whether an `Except` value is a success. -/
def exceptIsOk {ε α : Type} : Except ε α → Bool
  | Except.error _ => false
  | Except.ok _ => true

/-- The `returncode` field of a raised `LatexError`, if raised. -/
def latexErrReturncode : Except LatexError ByteSeq → Option Int
  | Except.error e => some e.returncode
  | Except.ok _ => none

/-- The `returncode` field of a raised `ConvertError`, if raised. -/
def cvErrReturncode {α : Type} : Except ConvertError α → Option Int
  | Except.error e => some e.returncode
  | Except.ok _ => none

/-- A temporary directory identifier is gone from a filesystem state:
not among the live directories and owning no remaining file. -/
def tempDirPurged (d : Nat) (fs : FSState) : Prop :=
  fs.dirs.filter (fun x => x == d) = [] ∧
  fs.files.filter (fun f => f.dir == d) = []

instance (d : Nat) (fs : FSState) : Decidable (tempDirPurged d fs) := by
  unfold tempDirPurged
  infer_instance

/-- An empty filesystem state, used for concrete evaluations. -/
def fs0 : FSState := ⟨0, [], [], []⟩

/-- A file-based world: launch succeeds, exit status 0, but the process
creates no files at all (in particular no expected output file). -/
def wNoOutput : FileWorld := ⟨true, 0, [], ""⟩

/-- A file-based world: launch succeeds but the process exits with 2. -/
def wExit2 : FileWorld := ⟨true, 2, [], ""⟩

/-- A file-based world: the binary cannot be launched. -/
def wLaunchFail : FileWorld := ⟨false, 0, [], "No such file or directory"⟩

/-- A file-based world for a successful `pdflatex` run leaving a
`code.pdf` (bytes of the ASCII text `PDF`). -/
def wGoodLatex : FileWorld := ⟨true, 0, [("code.pdf", [80, 68, 70])], ""⟩

/-- A file-based world for a failing `pdflatex` run leaving a `code.log`
(bytes of the ASCII text `log`). -/
def wBadLatexWithLog : FileWorld := ⟨true, 1, [("code.log", [108, 111, 103])], ""⟩

/-- A pipe-based world: launch succeeds, exit status 1, stderr bytes of
the ASCII text `err`. -/
def wPipeExit1 : PipeWorld := ⟨true, 1, [], [101, 114, 114], ""⟩

/-- A pipe-based world: launch succeeds, exit status 0, stdout bytes of
the ASCII text `out`. -/
def wPipeOk : PipeWorld := ⟨true, 0, [111, 117, 116], [], ""⟩

/-- A pipe-based world: the binary cannot be launched. -/
def wPipeLaunchFail : PipeWorld := ⟨false, 0, [], [], "No such file or directory"⟩

/-- A file-based world for a successful `pdf2svg` run leaving an
`outsvg.svg` (bytes of the ASCII text `<svg>`). -/
def wGoodSvg : FileWorld := ⟨true, 0, [("outsvg.svg", [60, 115, 118, 103, 62])], ""⟩

/-- A file-based world for a successful `convert` run leaving an
`outpng.png` (the PNG magic bytes). -/
def wGoodPng : FileWorld := ⟨true, 0, [("outpng.png", [137, 80, 78, 71])], ""⟩

/-- Filtering for a key value after having filtered it away yields
nothing. -/
lemma filter_key_ne_eq {α : Type} (key : α → Nat) (d : Nat) (l : List α) :
    (l.filter (fun x => key x != d)).filter (fun x => key x == d) = [] := by
  induction l with
  | nil => rfl
  | cons x xs ih =>
    by_cases h : key x = d
    · simp [List.filter_cons, h, ih]
    · simp [List.filter_cons, h, ih]

/-- `FSState.removeDir` leaves neither the directory nor any file in
it. -/
lemma removeDir_purged (fs : FSState) (d : Nat) :
    tempDirPurged d (fs.removeDir d) := by
  constructor
  · exact filter_key_ne_eq (fun x => x) d fs.dirs
  · exact filter_key_ne_eq FileEntry.dir d fs.files

/-- C9: for every file-based invocation (LaTeX compile, pdf2svg,
pdf2png), the freshly created temporary working directory (the one with
identifier `fs.nextDir`) and all its contents no longer exist in the
filesystem state once the call returns - for every world, hence on
every exit path: success, non-zero renderer exit, launch failure, or
missing output file. -/
theorem c9_tempdir_removed :
    (∀ code command w fs, tempDirPurged fs.nextDir (run_latex code command w fs).2) ∧
    (∀ pdf command w fs, tempDirPurged fs.nextDir (convert_pdf2svg pdf command w fs).2) ∧
    (∀ pdf command w fs, tempDirPurged fs.nextDir (convert_pdf2png pdf command w fs).2) := by
  refine ⟨fun code command w fs => ?_, fun pdf command w fs => ?_,
    fun pdf command w fs => ?_⟩ <;>
    exact removeDir_purged _ _

/-- C1 counterexample: in the world where `pdflatex` is launched
successfully and exits zero but creates no `code.pdf`, `run_latex`
raises a `LatexError` even though the process neither failed to launch
nor exited non-zero - so "an error is raised if and only if the process
exits non-zero or cannot be launched" is false as stated. -/
theorem c1_counterexample :
    ¬ ((exceptIsError (run_latex "x" DEFAULT_PDFLATEX wNoOutput fs0).1 = true) ↔
      (wNoOutput.launchOk = false ∨ wNoOutput.exitCode ≠ 0)) := by decide

/-- C1 amended: outcomes of one invocation. For the pipe-based Graphviz
invoker: a launch failure surfaces as an uncaught OS-level error (not a
`GraphvizError`); once launched, `GraphvizError` is raised exactly on
non-zero exit and a result is produced exactly on zero exit (the stdout
stream is always readable).  For the file-based LaTeX invoker:
`LatexError` is raised exactly when the process cannot be launched,
exits non-zero, or exits zero without leaving a readable `code.pdf`;
the result is produced exactly on zero exit with `code.pdf` present.
The outcomes are distinct constructors, hence mutually exclusive, and
the case analysis is exhaustive. -/
theorem c1_amended_outcomes :
    (∀ code options fmt cmd (w : PipeWorld),
      (w.popenOk = false → gvIsOsError (graphviz code options fmt cmd w) = true) ∧
      (w.popenOk = true → w.exitCode ≠ 0 → gvIsRaised (graphviz code options fmt cmd w) = true) ∧
      (w.popenOk = true → w.exitCode = 0 → gvIsOk (graphviz code options fmt cmd w) = true)) ∧
    (∀ code command (w : FileWorld) fs,
      (w.launchOk = false → exceptIsError (run_latex code command w fs).1 = true) ∧
      (w.launchOk = true → w.exitCode ≠ 0 → exceptIsError (run_latex code command w fs).1 = true) ∧
      (w.launchOk = true → w.exitCode = 0 → w.created "code.pdf" = none →
        exceptIsError (run_latex code command w fs).1 = true) ∧
      (∀ output, w.launchOk = true → w.exitCode = 0 → w.created "code.pdf" = some output →
        (run_latex code command w fs).1 = Except.ok output)) := by
  constructor
  · intro code options fmt cmd w
    refine ⟨fun hp => ?_, fun hp he => ?_, fun hp he => ?_⟩
    · simp [graphviz, gvIsOsError, hp]
    · simp [graphviz, gvIsRaised, hp, he]
    · by_cases hf : fmt = GvFormat.SVG <;> simp [graphviz, gvIsOk, hp, he, hf]
  · intro code command w fs
    refine ⟨fun hl => ?_, fun hl he => ?_, fun hl he hc => ?_,
      fun output hl he hc => ?_⟩ <;>
      simp [run_latex, withTempDir, exceptIsError, *]

/-- C1 amended witness: each case of `c1_amended_outcomes` realised at a
concrete input. -/
theorem c1_amended_outcomes_witness :
    gvIsOsError (graphviz "d" [] GvFormat.SVG GvCommand.DOT wPipeLaunchFail) = true ∧
    gvIsRaised (graphviz "d" [] GvFormat.SVG GvCommand.DOT wPipeExit1) = true ∧
    gvIsOk (graphviz "d" [] GvFormat.SVG GvCommand.DOT wPipeOk) = true ∧
    exceptIsError (run_latex "x" DEFAULT_PDFLATEX wLaunchFail fs0).1 = true ∧
    exceptIsError (run_latex "x" DEFAULT_PDFLATEX wExit2 fs0).1 = true ∧
    exceptIsError (run_latex "x" DEFAULT_PDFLATEX wNoOutput fs0).1 = true ∧
    (run_latex "x" DEFAULT_PDFLATEX wGoodLatex fs0).1 = Except.ok [80, 68, 70] :=
  ⟨(c1_amended_outcomes.1 "d" [] GvFormat.SVG GvCommand.DOT wPipeLaunchFail).1 rfl,
   (c1_amended_outcomes.1 "d" [] GvFormat.SVG GvCommand.DOT wPipeExit1).2.1 rfl (by decide),
   (c1_amended_outcomes.1 "d" [] GvFormat.SVG GvCommand.DOT wPipeOk).2.2 rfl rfl,
   (c1_amended_outcomes.2 "x" DEFAULT_PDFLATEX wLaunchFail fs0).1 rfl,
   (c1_amended_outcomes.2 "x" DEFAULT_PDFLATEX wExit2 fs0).2.1 rfl (by decide),
   (c1_amended_outcomes.2 "x" DEFAULT_PDFLATEX wNoOutput fs0).2.2.1 rfl rfl (by decide),
   (c1_amended_outcomes.2 "x" DEFAULT_PDFLATEX wGoodLatex fs0).2.2.2 [80, 68, 70]
     rfl rfl (by decide)⟩

/-- C2 counterexample: for the PDF-to-SVG converter, a run that exits
with status 2 is reported with `returncode` `-1` - the very sentinel
used for launch failures - so `failed to launch` is not distinguishable
from `ran and exited non-zero` via the exit-code field, contrary to the
claim. -/
theorem c2_counterexample :
    cvErrReturncode (convert_pdf2svg [37] DEFAULT_PDF2SVG wExit2 fs0).1 = some (-1) ∧
    cvErrReturncode (convert_pdf2svg [37] DEFAULT_PDF2SVG wLaunchFail fs0).1 = some (-1) ∧
    ¬ (cvErrReturncode (convert_pdf2svg [37] DEFAULT_PDF2SVG wExit2 fs0).1 ≠
      cvErrReturncode (convert_pdf2svg [37] DEFAULT_PDF2SVG wLaunchFail fs0).1) := by
  decide

/-- C2 amended: only the file-based LaTeX invoker keeps launch failures
distinguishable: there `LatexError.returncode` is the sentinel `-1`
(distinct from any real, non-negative process exit code) exactly on
launch failure and the actual exit code on a runtime failure.  The two
PDF converters funnel launch failures into `ConvertError` with `-1` but
also record `-1` for runtime non-zero exits, and the Graphviz invoker
does not funnel launch failures into `GraphvizError` at all: the
OS-level error from `Popen` propagates uncaught. -/
theorem c2_amended_sentinel :
    (∀ code command (w : FileWorld) fs, w.launchOk = false →
      latexErrReturncode (run_latex code command w fs).1 = some (-1)) ∧
    (∀ code command (w : FileWorld) fs, w.launchOk = true → w.exitCode ≠ 0 →
      latexErrReturncode (run_latex code command w fs).1 = some ((w.exitCode : Int)) ∧
      ((w.exitCode : Int)) ≠ -1) ∧
    (∀ pdf command (w : FileWorld) fs, w.launchOk = false →
      cvErrReturncode (convert_pdf2svg pdf command w fs).1 = some (-1) ∧
      cvErrReturncode (convert_pdf2png pdf command w fs).1 = some (-1)) ∧
    (∀ pdf command (w : FileWorld) fs, w.launchOk = true → w.exitCode ≠ 0 →
      cvErrReturncode (convert_pdf2svg pdf command w fs).1 = some (-1) ∧
      cvErrReturncode (convert_pdf2png pdf command w fs).1 = some (-1)) ∧
    (∀ code options fmt cmd (w : PipeWorld), w.popenOk = false →
      graphviz code options fmt cmd w = GvOutcome.osError w.osMessage) := by
  refine ⟨fun code command w fs hl => ?_,
    fun code command w fs hl he => ⟨?_, by omega⟩,
    fun pdf command w fs hl => ⟨?_, ?_⟩,
    fun pdf command w fs hl he => ⟨?_, ?_⟩,
    fun code options fmt cmd w hp => ?_⟩ <;>
    simp [run_latex, convert_pdf2svg, convert_pdf2png, graphviz, withTempDir,
      latexErrReturncode, cvErrReturncode, *]

/-- C2 amended witness: each case of `c2_amended_sentinel` realised at a
concrete input. -/
theorem c2_amended_sentinel_witness :
    latexErrReturncode (run_latex "y" DEFAULT_PDFLATEX wLaunchFail fs0).1 = some (-1) ∧
    (latexErrReturncode (run_latex "y" DEFAULT_PDFLATEX wExit2 fs0).1 =
        some ((wExit2.exitCode : Int)) ∧
      ((wExit2.exitCode : Int)) ≠ -1) ∧
    (cvErrReturncode (convert_pdf2svg [37] DEFAULT_PDF2SVG wLaunchFail fs0).1 = some (-1) ∧
      cvErrReturncode (convert_pdf2png [37] DEFAULT_PDF2PNG wLaunchFail fs0).1 = some (-1)) ∧
    (cvErrReturncode (convert_pdf2svg [37] DEFAULT_PDF2SVG wExit2 fs0).1 = some (-1) ∧
      cvErrReturncode (convert_pdf2png [37] DEFAULT_PDF2PNG wExit2 fs0).1 = some (-1)) ∧
    graphviz "d" [] GvFormat.SVG GvCommand.DOT wPipeLaunchFail =
      GvOutcome.osError wPipeLaunchFail.osMessage :=
  ⟨c2_amended_sentinel.1 "y" DEFAULT_PDFLATEX wLaunchFail fs0 rfl,
   c2_amended_sentinel.2.1 "y" DEFAULT_PDFLATEX wExit2 fs0 rfl (by decide),
   c2_amended_sentinel.2.2.1 [37] DEFAULT_PDF2SVG wLaunchFail fs0 rfl,
   c2_amended_sentinel.2.2.2.1 [37] DEFAULT_PDF2SVG wExit2 fs0 rfl (by decide),
   c2_amended_sentinel.2.2.2.2 "d" [] GvFormat.SVG GvCommand.DOT wPipeLaunchFail rfl⟩

/-- C3: on a launched process exiting non-zero, the raised error carries
the full argument vector, a `returncode` equal to the process's actual
exit code, the original source verbatim in its `code` field, and as
diagnostic text the decoded standard error (pipe-based Graphviz) or the
content of `code.log` if that file exists, else the marker
`no log file created` (file-based LaTeX). -/
theorem c3_error_diagnostics :
    (∀ code options fmt cmd (w : PipeWorld), w.popenOk = true → w.exitCode ≠ 0 →
      graphviz code options fmt cmd w =
        GvOutcome.raised ⟨[cmd.value] ++ options ++ ["-T", fmt.value],
          (w.exitCode : Int), utf8Decode w.stderrBytes, code⟩) ∧
    (∀ code command (w : FileWorld) fs log, w.launchOk = true → w.exitCode ≠ 0 →
      w.created "code.log" = some log →
      (run_latex code command w fs).1 =
        Except.error ⟨command ++ ["code.tex"], (w.exitCode : Int), utf8Decode log, code⟩) ∧
    (∀ code command (w : FileWorld) fs, w.launchOk = true → w.exitCode ≠ 0 →
      w.created "code.log" = none →
      (run_latex code command w fs).1 =
        Except.error ⟨command ++ ["code.tex"], (w.exitCode : Int),
          "no log file created", code⟩) := by
  refine ⟨fun code options fmt cmd w hp he => ?_,
    fun code command w fs log hl he hc => ?_,
    fun code command w fs hl he hc => ?_⟩ <;>
    simp [graphviz, run_latex, withTempDir, *]

/-- C3 witness: each case of `c3_error_diagnostics` realised at a
concrete input (a Graphviz run exiting 1 with stderr bytes, a LaTeX run
exiting 1 leaving a `code.log`, and a LaTeX run exiting 2 leaving no
log file). -/
theorem c3_error_diagnostics_witness :
    graphviz "g" ["-x"] GvFormat.PNG GvCommand.NEATO wPipeExit1 =
      GvOutcome.raised ⟨[GvCommand.NEATO.value] ++ ["-x"] ++ ["-T", GvFormat.PNG.value],
        (wPipeExit1.exitCode : Int), utf8Decode wPipeExit1.stderrBytes, "g"⟩ ∧
    (run_latex "t" DEFAULT_PDFLATEX wBadLatexWithLog fs0).1 =
      Except.error ⟨DEFAULT_PDFLATEX ++ ["code.tex"], (wBadLatexWithLog.exitCode : Int),
        utf8Decode [108, 111, 103], "t"⟩ ∧
    (run_latex "t" DEFAULT_PDFLATEX wExit2 fs0).1 =
      Except.error ⟨DEFAULT_PDFLATEX ++ ["code.tex"], (wExit2.exitCode : Int),
        "no log file created", "t"⟩ :=
  ⟨c3_error_diagnostics.1 "g" ["-x"] GvFormat.PNG GvCommand.NEATO wPipeExit1 rfl (by decide),
   c3_error_diagnostics.2.1 "t" DEFAULT_PDFLATEX wBadLatexWithLog fs0 [108, 111, 103]
     rfl (by decide) (by decide),
   c3_error_diagnostics.2.2 "t" DEFAULT_PDFLATEX wExit2 fs0 rfl (by decide) (by decide)⟩

/-- C4 counterexample: when pdf2svg (resp. pdf2png) runs and exits with
status 2, the raised `ConvertError` does not carry the process's exit
code: its `returncode` field is `-1`. -/
theorem c4_counterexample :
    wExit2.exitCode = 2 ∧
    ¬ (cvErrReturncode (convert_pdf2svg [37] DEFAULT_PDF2SVG wExit2 fs0).1 =
      some ((wExit2.exitCode : Int))) ∧
    ¬ (cvErrReturncode (convert_pdf2png [37] DEFAULT_PDF2PNG wExit2 fs0).1 =
      some ((wExit2.exitCode : Int))) := by
  decide

/-- C4 amended: on every failed PDF conversion the raised `ConvertError`
carries the argument vector that was executed and the captured
standard-error text (the OS error message on launch failure, the empty
string on a runtime failure - `call` captures no stderr - and the
`no output created` marker when the output file is missing); its
exit-code field is the sentinel `-1` both on launch failure and on a
runtime non-zero exit (the actual exit code is not recorded) and the
zero exit status in the missing-output case.  The `ConvertError` type
has no `code` field, so it never carries the original source. -/
theorem c4_amended_convert_error :
    (∀ pdf command (w : FileWorld) fs, w.launchOk = false →
      (convert_pdf2svg pdf command w fs).1 =
        Except.error ⟨command ++ ["inpdf.pdf", "outsvg.svg"], -1, w.osMessage⟩ ∧
      (convert_pdf2png pdf command w fs).1 =
        Except.error ⟨command ++ ["inpdf.pdf", "outpng.png"], -1, w.osMessage⟩) ∧
    (∀ pdf command (w : FileWorld) fs, w.launchOk = true → w.exitCode ≠ 0 →
      (convert_pdf2svg pdf command w fs).1 =
        Except.error ⟨command ++ ["inpdf.pdf", "outsvg.svg"], -1, ""⟩ ∧
      (convert_pdf2png pdf command w fs).1 =
        Except.error ⟨command ++ ["inpdf.pdf", "outpng.png"], -1, ""⟩) ∧
    (∀ pdf command (w : FileWorld) fs, w.launchOk = true → w.exitCode = 0 →
      w.created "outsvg.svg" = none →
      (convert_pdf2svg pdf command w fs).1 =
        Except.error ⟨command ++ ["inpdf.pdf", "outsvg.svg"], (w.exitCode : Int),
          "no output created"⟩) ∧
    (∀ pdf command (w : FileWorld) fs, w.launchOk = true → w.exitCode = 0 →
      w.created "outpng.png" = none →
      (convert_pdf2png pdf command w fs).1 =
        Except.error ⟨command ++ ["inpdf.pdf", "outpng.png"], (w.exitCode : Int),
          "no output created"⟩) := by
  refine ⟨fun pdf command w fs hl => ⟨?_, ?_⟩,
    fun pdf command w fs hl he => ⟨?_, ?_⟩,
    fun pdf command w fs hl he hc => ?_,
    fun pdf command w fs hl he hc => ?_⟩ <;>
    simp [convert_pdf2svg, convert_pdf2png, withTempDir, *]

/-- C4 amended witness: each case of `c4_amended_convert_error` realised
at a concrete input. -/
theorem c4_amended_convert_error_witness :
    ((convert_pdf2svg [37] DEFAULT_PDF2SVG wLaunchFail fs0).1 =
        Except.error ⟨DEFAULT_PDF2SVG ++ ["inpdf.pdf", "outsvg.svg"], -1,
          wLaunchFail.osMessage⟩ ∧
      (convert_pdf2png [37] DEFAULT_PDF2SVG wLaunchFail fs0).1 =
        Except.error ⟨DEFAULT_PDF2SVG ++ ["inpdf.pdf", "outpng.png"], -1,
          wLaunchFail.osMessage⟩) ∧
    ((convert_pdf2svg [37] DEFAULT_PDF2SVG wExit2 fs0).1 =
        Except.error ⟨DEFAULT_PDF2SVG ++ ["inpdf.pdf", "outsvg.svg"], -1, ""⟩ ∧
      (convert_pdf2png [37] DEFAULT_PDF2SVG wExit2 fs0).1 =
        Except.error ⟨DEFAULT_PDF2SVG ++ ["inpdf.pdf", "outpng.png"], -1, ""⟩) ∧
    (convert_pdf2svg [37] DEFAULT_PDF2SVG wNoOutput fs0).1 =
      Except.error ⟨DEFAULT_PDF2SVG ++ ["inpdf.pdf", "outsvg.svg"],
        (wNoOutput.exitCode : Int), "no output created"⟩ ∧
    (convert_pdf2png [37] DEFAULT_PDF2SVG wNoOutput fs0).1 =
      Except.error ⟨DEFAULT_PDF2SVG ++ ["inpdf.pdf", "outpng.png"],
        (wNoOutput.exitCode : Int), "no output created"⟩ :=
  ⟨c4_amended_convert_error.1 [37] DEFAULT_PDF2SVG wLaunchFail fs0 rfl,
   c4_amended_convert_error.2.1 [37] DEFAULT_PDF2SVG wExit2 fs0 rfl (by decide),
   c4_amended_convert_error.2.2.1 [37] DEFAULT_PDF2SVG wNoOutput fs0 rfl rfl (by decide),
   c4_amended_convert_error.2.2.2 [37] DEFAULT_PDF2SVG wNoOutput fs0 rfl rfl (by decide)⟩

/-- C5: the library-inclusion block is one `\usetikzlibrary` directive
per caller-supplied entry, in the given order, followed by one per
entry of the fixed default set in its fixed order; and when the caller
omits the argument, so that the list defaults to `DEFAULT_LIBRARIES`
itself, every default library appears exactly twice. -/
theorem c5_library_block :
    (∀ library : List String,
      tikzLibraryDirectives library =
        List.map usetikzlibraryDirective library ++
          List.map usetikzlibraryDirective DEFAULT_LIBRARIES) ∧
    (DEFAULT_LIBRARIES.all (fun l =>
      (tikzLibraryDirectives DEFAULT_LIBRARIES).count (usetikzlibraryDirective l) == 2)) =
      true := by
  constructor
  · intro library
    simp [tikzLibraryDirectives]
  · decide

/-- C6 (code evaluation): in the Graphviz pipeline the dispatcher wraps
a PNG payload as a raster `display.Image` object and an SVG payload as
a `display.SVG` object, the payload passed through unmodified; but in
the TikZ pipeline a PNG request reaches `display.Image` in a module
that never imports `IPython.core.display`, so the cell raises
`NameError` for the name `display` instead of returning an image
object. -/
theorem c6_raster_dispatch_evaluation :
    graphvizMagic "digraph" [] GvFormat.PNG GvCommand.DOT wPipeOk =
      GvMagicResult.displayed (DisplayObject.image (RenderOutput.bytes wPipeOk.stdoutBytes)) ∧
    graphvizMagic "digraph" [] GvFormat.SVG GvCommand.DOT wPipeOk =
      GvMagicResult.displayed
        (DisplayObject.svg (RenderOutput.text (utf8Decode wPipeOk.stdoutBytes))) ∧
    (tikzMagic "cell" TkFormat.PNG [] [] [] none ⟨wGoodLatex, wNoOutput, wNoOutput⟩ fs0).1 =
      TikzResult.nameError "display" := by
  refine ⟨by decide, by decide, by decide⟩

/-- C7 counterexample: the Graphviz argument vector is not of the shape
`[command] ++ options ++ ["-T<format>"]` with the format flag as a
single concatenated token: at command `dot`, no options and format
`svg`, the executed vector (as carried by the raised error) is
`["dot", "-T", "svg"]`, not `["dot", "-Tsvg"]`. -/
theorem c7_counterexample :
    ¬ (gvRaisedCommand (graphviz "g" [] GvFormat.SVG GvCommand.DOT wPipeExit1) =
      some (["dot"] ++ [] ++ ["-T" ++ "svg"])) := by
  decide

/-- C7 amended: the argument vector executed has exactly the shape
`[command] ++ options ++ ["-T", format]`: the `-T` flag and the format
name are two separate consecutive tokens. -/
theorem c7_amended_argv :
    ∀ code options fmt cmd (w : PipeWorld), w.popenOk = true → w.exitCode ≠ 0 →
      gvRaisedCommand (graphviz code options fmt cmd w) =
        some ([cmd.value] ++ options ++ ["-T", fmt.value]) := by
  intro code options fmt cmd w hp he
  simp [graphviz, gvRaisedCommand, hp, he]

/-- C7 amended witness: `c7_amended_argv` at a concrete input. -/
theorem c7_amended_argv_witness :
    gvRaisedCommand (graphviz "g" ["-s"] GvFormat.PNG GvCommand.CIRCO wPipeExit1) =
      some ([GvCommand.CIRCO.value] ++ ["-s"] ++ ["-T", GvFormat.PNG.value]) :=
  c7_amended_argv "g" ["-s"] GvFormat.PNG GvCommand.CIRCO wPipeExit1 rfl (by decide)

/-- C8: every successful invocation returns an SVG result as a
UTF-8-decoded string and any other result as an opaque byte buffer:
the Graphviz invoker decodes stdout exactly for the SVG format, the
PDF-to-SVG converter decodes the output file, and the PDF-to-PNG
converter returns the output file's raw bytes. -/
theorem c8_output_decoding :
    (∀ code options cmd (w : PipeWorld), w.popenOk = true → w.exitCode = 0 →
      graphviz code options GvFormat.SVG cmd w =
        GvOutcome.ok (RenderOutput.text (utf8Decode w.stdoutBytes))) ∧
    (∀ code options fmt cmd (w : PipeWorld), w.popenOk = true → w.exitCode = 0 →
      fmt ≠ GvFormat.SVG →
      graphviz code options fmt cmd w = GvOutcome.ok (RenderOutput.bytes w.stdoutBytes)) ∧
    (∀ pdf command (w : FileWorld) fs out, w.launchOk = true → w.exitCode = 0 →
      w.created "outsvg.svg" = some out →
      (convert_pdf2svg pdf command w fs).1 = Except.ok (utf8Decode out)) ∧
    (∀ pdf command (w : FileWorld) fs out, w.launchOk = true → w.exitCode = 0 →
      w.created "outpng.png" = some out →
      (convert_pdf2png pdf command w fs).1 = Except.ok out) := by
  refine ⟨fun code options cmd w hp he => ?_,
    fun code options fmt cmd w hp he hf => ?_,
    fun pdf command w fs out hl he hc => ?_,
    fun pdf command w fs out hl he hc => ?_⟩ <;>
    simp [graphviz, convert_pdf2svg, convert_pdf2png, withTempDir, *]

/-- C8 witness: each case of `c8_output_decoding` realised at a concrete
input. -/
theorem c8_output_decoding_witness :
    graphviz "g" [] GvFormat.SVG GvCommand.DOT wPipeOk =
      GvOutcome.ok (RenderOutput.text (utf8Decode wPipeOk.stdoutBytes)) ∧
    graphviz "g" [] GvFormat.PNG GvCommand.DOT wPipeOk =
      GvOutcome.ok (RenderOutput.bytes wPipeOk.stdoutBytes) ∧
    (convert_pdf2svg [37] DEFAULT_PDF2SVG wGoodSvg fs0).1 =
      Except.ok (utf8Decode [60, 115, 118, 103, 62]) ∧
    (convert_pdf2png [37] DEFAULT_PDF2PNG wGoodPng fs0).1 =
      Except.ok [137, 80, 78, 71] :=
  ⟨c8_output_decoding.1 "g" [] GvCommand.DOT wPipeOk rfl rfl,
   c8_output_decoding.2.1 "g" [] GvFormat.PNG GvCommand.DOT wPipeOk rfl rfl (by decide),
   c8_output_decoding.2.2.1 [37] DEFAULT_PDF2SVG wGoodSvg fs0 [60, 115, 118, 103, 62]
     rfl rfl (by decide),
   c8_output_decoding.2.2.2 [37] DEFAULT_PDF2PNG wGoodPng fs0 [137, 80, 78, 71]
     rfl rfl (by decide)⟩

/-- `run_latex` never touches the saved-files record: only the tikz
magic's save step writes there. -/
lemma run_latex_savedFiles (code : String) (command : List String)
    (w : FileWorld) (fs : FSState) :
    (run_latex code command w fs).2.savedFiles = fs.savedFiles := by
  cases hl : w.launchOk <;> by_cases he : w.exitCode = 0 <;>
    cases hc : w.created "code.pdf" <;>
      simp [run_latex, withTempDir, FSState.removeDir, FSState.writeFile,
        FSState.writeAll, hl, he, hc]

/-- `convert_pdf2svg` never touches the saved-files record. -/
lemma convert_pdf2svg_savedFiles (pdf : ByteSeq) (command : List String)
    (w : FileWorld) (fs : FSState) :
    (convert_pdf2svg pdf command w fs).2.savedFiles = fs.savedFiles := by
  cases hl : w.launchOk <;> by_cases he : w.exitCode = 0 <;>
    cases hc : w.created "outsvg.svg" <;>
      simp [convert_pdf2svg, withTempDir, FSState.removeDir, FSState.writeFile,
        FSState.writeAll, hl, he, hc]

/-- C10: in the TikZ cell magic with a save path, whenever the run ends
in a `ConvertError` the PDF produced by `run_latex` has already been
written to the save path and persists in the final filesystem state:
the save step precedes the conversion attempt. -/
theorem c10_save_before_convert :
    ∀ cell library packages options path (w : TikzWorlds) fs e,
      (tikzMagic cell TkFormat.SVG library packages options (some path) w fs).1 =
        TikzResult.convertFailure e →
      ∃ pdf,
        (run_latex (tikzAssembleDocument cell library packages options)
          DEFAULT_PDFLATEX w.latex fs).1 = Except.ok pdf ∧
        (tikzMagic cell TkFormat.SVG library packages options (some path) w fs).2.savedFiles =
          fs.savedFiles ++ [(path, pdf)] := by
  intro cell library packages options path w fs e h
  cases hq : run_latex (tikzAssembleDocument cell library packages options)
      DEFAULT_PDFLATEX w.latex fs with
  | mk r fs1 =>
    cases r with
    | error e0 =>
      exfalso
      simp [tikzMagic, hq] at h
    | ok pdf =>
      refine ⟨pdf, rfl, ?_⟩
      have h1 : fs1.savedFiles = fs.savedFiles := by
        have hs := run_latex_savedFiles (tikzAssembleDocument cell library packages options)
          DEFAULT_PDFLATEX w.latex fs
        rw [hq] at hs
        exact hs
      cases hc : convert_pdf2svg pdf DEFAULT_PDF2SVG w.svg
          { fs1 with savedFiles := fs1.savedFiles ++ [(path, pdf)] } with
      | mk cr fs3 =>
        have h3 : fs3.savedFiles = fs1.savedFiles ++ [(path, pdf)] := by
          have hs := convert_pdf2svg_savedFiles pdf DEFAULT_PDF2SVG w.svg
            { fs1 with savedFiles := fs1.savedFiles ++ [(path, pdf)] }
          rw [hc] at hs
          exact hs
        cases cr with
        | error e1 =>
          simp only [tikzMagic, hq]
          rw [hc]
          simp [h3, h1]
        | ok data =>
          exfalso
          simp [tikzMagic, hq, hc] at h

/-- C10 witness: `c10_save_before_convert` at a concrete input (LaTeX
succeeds leaving a PDF, the save path is `out.pdf`, and pdf2svg exits
with status 2). -/
theorem c10_save_before_convert_witness :
    ∃ pdf,
      (run_latex (tikzAssembleDocument "c" [] [] []) DEFAULT_PDFLATEX wGoodLatex fs0).1 =
        Except.ok pdf ∧
      (tikzMagic "c" TkFormat.SVG [] [] [] (some "out.pdf")
          ⟨wGoodLatex, wExit2, wNoOutput⟩ fs0).2.savedFiles =
        fs0.savedFiles ++ [("out.pdf", pdf)] :=
  c10_save_before_convert "c" [] [] [] "out.pdf" ⟨wGoodLatex, wExit2, wNoOutput⟩ fs0
    ⟨DEFAULT_PDF2SVG ++ ["inpdf.pdf", "outsvg.svg"], -1, ""⟩ (by decide)
